import Mathlib

/-!
Verification of `copy_context.py` (smart_context_reducer).

The script is a linear pipeline: enumerate files, read each one, batch the
contents under a token budget, send each batch to a remote analyzer, append
non-empty responses to an output file, and finally copy the file to the
clipboard.  The definitions below are a shallow embedding of that pipeline:
pure functions are translated directly, the stateful main loop becomes an
explicit state record threaded through a fold, and the effects we reason
about (output-file operations, console messages, exit codes) are recorded in
the state.  External effects the claims quantify over — the outcome of
reading each file, the response returned by the remote API for each batch,
and whether the clipboard copy succeeds — are inputs to the model.
-/

/-! ## Configuration constants (lines 31-35 of the source) -/

/-- `MAX_TOKENS = 4000` — token limit passed to the API. -/
def MAX_TOKENS : Nat := 4000

/-- `TOKEN_ESTIMATE_PER_CHAR = 0.25` — 1 token ≈ 4 characters.  The Python
float `0.25` is represented exactly in binary floating point, so we model the
constant as the rational `0.25`. -/
def TOKEN_ESTIMATE_PER_CHAR : ℚ := 0.25

/-- `BATCH_MAX_TOKENS = 3000` — the batching ceiling. -/
def BATCH_MAX_TOKENS : Nat := 3000

/-- `OUTPUT_FILE = "relevant_code.txt"`. -/
def OUTPUT_FILE : String := "relevant_code.txt"

/-! ## Token estimator (source lines 60-64) -/

/-- `estimate_tokens(char_count)` returns `int(char_count * TOKEN_ESTIMATE_PER_CHAR)`.
For a non-negative argument Python's `int()` truncation is the floor, and the
multiplication by `0.25` is exact, so the function is the floor of
`char_count * 0.25`. -/
def estimate_tokens (char_count : Nat) : Nat :=
  ⌊(char_count : ℚ) * TOKEN_ESTIMATE_PER_CHAR⌋₊

/-! ## Retry decorator (source lines 93-112)

`retry(exception_to_check, tries=4, delay=3, backoff=2)` wraps a call `f` in

    mtries, mdelay = tries, delay
    while mtries > 1:
        try: return await f(...)
        except ...: sleep(mdelay); mtries -= 1; mdelay *= backoff
    return await f(...)

We model the wrapped call as a function from the attempt index (0-based) to
an `Except` outcome, and the wrapper as returning the final outcome together
with the number of attempts actually made and the list of sleep delays
performed, in order. -/

/-- One unrolling of the `while mtries > 1` loop.  The arguments mirror the
local state: remaining `mtries`, the index of the attempt about to be made,
and the current `mdelay`.  When `mtries ≤ 1` the loop exits and the final
attempt's outcome is returned as-is (source line 110). -/
def f_retry_go {ε α : Type} (f : Nat → Except ε α) (backoff : Nat) :
    Nat → Nat → Nat → Except ε α × Nat × List Nat
  | mtries + 2, attempt, mdelay =>
    match f attempt with
    | Except.ok a => (Except.ok a, attempt + 1, [])
    | Except.error _ =>
      let r := f_retry_go f backoff (mtries + 1) (attempt + 1) (mdelay * backoff)
      (r.1, r.2.1, mdelay :: r.2.2)
  | _, attempt, _ => (f attempt, attempt + 1, [])

/-- `retry_run tries delay backoff f` is the decorated call: final outcome,
number of attempts made, and the sleep delays in order. -/
def retry_run {ε α : Type} (tries delay backoff : Nat) (f : Nat → Except ε α) :
    Except ε α × Nat × List Nat :=
  f_retry_go f backoff tries 0 delay

/-- A wrapped call that fails on its first `K` attempts and succeeds from
attempt `K` on — the scenario of the retry claim. -/
def failsThen {ε α : Type} (K : Nat) (e : ε) (a : α) : Nat → Except ε α :=
  fun n => if n < K then Except.error e else Except.ok a

/-! ## Remote analyzer client (source lines 118-151)

`process_with_claude` builds the request, iterates the streamed chunks and
concatenates the delta texts; the whole body is inside `try`, and
`except Exception` returns the empty string.  We model the interaction's
outcome as an `Except`: a successful call delivers the list of streamed text
fragments, a failed one an exception value. -/

/-- The client: concatenates the streamed text fragments on success
(preserving arrival order), returns `""` on any exception. -/
def process_with_claude {ε : Type} (outcome : Except ε (List String)) : String :=
  match outcome with
  | Except.ok chunks => String.join chunks
  | Except.error _ => ""

/-! ## Main pipeline (source lines 165-269)

The loop state of `main` consists of `token_count`, `batch_content` and
`processed_files`; the model additionally records, as observations:

* `batchFiles` — the decomposition of `batch_content` into the file contents
  appended since the last flush (the string is exactly their concatenation,
  each followed by the `"\n\n"` separator);
* `emitted` — for each batch sent to the API so far, the list of file
  contents it contained, in order;
* `flushCount` — how many API calls have been made (used to index the
  response oracle);
* `fileContent` — the current contents of the output file
  (`write_text(read_text() + s)` is modelled by its observable effect, an
  append);
* `trace` — the sequence of mutating/reading operations on the output file;
* `progress` — how often `progress.update(task, advance=1)` ran;
* `console` — messages printed at the clipboard stage.

The per-file read outcome is an input: `none` models a read that raised
(source lines 225-228), `some content` a successful read.  The response the
API yields for the k-th batch is `responses k`. -/

/-- An observable operation on the output file. -/
inductive FileOp : Type
  | truncate
  | append (s : String)
  | readAll
deriving DecidableEq

/-- State of the modelled `main`. -/
structure MainState : Type where
  tokenCount : Nat
  batchContent : String
  batchFiles : List String
  emitted : List (List String)
  processedFiles : Nat
  progress : Nat
  flushCount : Nat
  fileContent : String
  trace : List FileOp
  console : List String
deriving DecidableEq

/-- State right after `output_path.write_text("")` (source line 179): all
counters zero, output file just truncated. -/
def initState : MainState :=
  { tokenCount := 0, batchContent := "", batchFiles := [], emitted := []
    processedFiles := 0, progress := 0, flushCount := 0, fileContent := ""
    trace := [FileOp.truncate], console := [] }

/-- Send the current buffer to the API (source lines 234-241 and 252-256):
the batch joins `emitted`, and if the response is non-empty it is appended,
followed by `"\n\n"`, to the output file (`if relevant_content:`).  The
buffer variables are NOT reset here — the in-loop flush resets them on the
following two source lines, the final flush never does. -/
def emitBatch (responses : Nat → String) (s : MainState) : MainState :=
  let resp := responses s.flushCount
  { s with
    emitted := s.emitted ++ [s.batchFiles]
    flushCount := s.flushCount + 1
    fileContent := if resp = "" then s.fileContent else s.fileContent ++ (resp ++ "\n\n")
    trace := if resp = "" then s.trace else s.trace ++ [FileOp.append (resp ++ "\n\n")] }

/-- One iteration of `for file in files:` (source lines 221-248).  A failed
read logs, advances the progress bar and `continue`s.  A successful read
computes the file's token estimate, flushes (and then resets) the buffer
when `token_count + file_token_count > BATCH_MAX_TOKENS` — with no check
that the buffer is non-empty — and then appends the content plus separator
to the buffer and bumps the counters. -/
def stepFile (responses : Nat → String) (s : MainState) (r : Option String) : MainState :=
  match r with
  | none => { s with progress := s.progress + 1 }
  | some content =>
    let ftc := estimate_tokens content.length
    let s1 :=
      if s.tokenCount + ftc > BATCH_MAX_TOKENS then
        let se := emitBatch responses s
        { se with batchContent := "", batchFiles := [], tokenCount := 0 }
      else s
    { s1 with
      batchContent := s1.batchContent ++ (content ++ "\n\n")
      batchFiles := s1.batchFiles ++ [content]
      tokenCount := s1.tokenCount + ftc
      processedFiles := s1.processedFiles + 1
      progress := s1.progress + 1 }

/-- The clipboard stage (source lines 261-269): read the output file in full,
copy it to the clipboard.  On success, print the summary with the processed
count; on failure, log the exception and print the fallback message.
Neither branch touches the output file or exits. -/
def clipboardStage (clipboardOk : Bool) (s : MainState) : MainState :=
  let s1 := { s with trace := s.trace ++ [FileOp.readAll] }
  if clipboardOk then
    { s1 with console := s1.console ++
        ["🎉 Successfully processed " ++ toString s1.processedFiles ++ " file(s)."
        , "Relevant code snippets have been saved to '" ++ OUTPUT_FILE ++
          "' and copied to the clipboard!"] }
  else
    { s1 with console := s1.console ++
        ["Processed content saved, but failed to copy to clipboard. Check the log for details."] }

/-- The portion of `main` from the truncation of the output file to the end:
the per-file loop, the final flush guarded by `if batch_content:` (Python
string truthiness, i.e. `batch_content ≠ ""`), and the clipboard stage. -/
def mainRun (responses : Nat → String) (clipboardOk : Bool)
    (files : List (Option String)) : MainState :=
  let s1 := files.foldl (stepFile responses) initState
  let s2 := if s1.batchContent = "" then s1 else emitBatch responses s1
  clipboardStage clipboardOk s2

/-- The external world of one run: the interactive prompt, the result of
`find_files` (each discovered file represented by its read outcome), the
`CLAUDE_API_KEY` environment variable, the API response oracle, and whether
the clipboard copy succeeds. -/
structure Env : Type where
  /-- The interactive prompt after the `.strip()` applied to the raw console
  input on source line 286. -/
  userPrompt : String
  findResult : Except String (List (Option String))
  apiKey : Option String
  responses : Nat → String
  clipboardOk : Bool

/-- `main` (source lines 165-269) as exit-code semantics: `find_files` exits
1 on enumeration failure (line 91); zero files exits 0 (line 176) — before
the output file is truncated and before the credential check; a missing
`CLAUDE_API_KEY` exits 1 (line 189) — after the truncation; otherwise the
pipeline runs to completion and `main` returns normally (exit 0).  Returns
the final state when the truncation was reached. -/
def main_model (env : Env) : Option MainState × Nat :=
  match env.findResult with
  | Except.error _ => (none, 1)
  | Except.ok files =>
    if files.length = 0 then (none, 0)
    else
      match env.apiKey with
      | none => (some initState, 1)
      | some _ => (some (mainRun env.responses env.clipboardOk files), 0)

/-- `cli_main` (source lines 279-296): exit 1 when the stripped interactive
prompt is empty, otherwise run `main`; `sys.exit` inside `main` raises
`SystemExit`, which is not an `Exception`, so its code propagates. -/
def cli_main_model (env : Env) : Nat :=
  if env.userPrompt = "" then 1 else (main_model env).2

/-! ## Derived quantities used by the claims -/

/-- The batch-content string determined by a list of file contents: each
content followed by the `"\n\n"` separator. -/
def batchContentOf : List String → String
  | [] => ""
  | c :: fs => (c ++ "\n\n") ++ batchContentOf fs

/-- Total estimated tokens of a list of file contents. -/
def tokenSum (fs : List String) : Nat :=
  (fs.map (fun c => estimate_tokens c.length)).sum

/-- The output-file appends produced by the first `n` API calls: one
`FileOp.append` per call whose response is non-empty. -/
def appendOpsUpTo (responses : Nat → String) (n : Nat) : List FileOp :=
  (List.range n).filterMap
    (fun k => if responses k = "" then none else some (FileOp.append (responses k ++ "\n\n")))

/-- Invariant of the main loop: the buffer string matches its decomposition,
the running counter matches the buffer's token sum, a buffer holding at
least two files is within the ceiling, and every batch emitted so far was
within the ceiling unless it held exactly one file. -/
def BatchInv (s : MainState) : Prop :=
  s.batchContent = batchContentOf s.batchFiles ∧
  s.tokenCount = tokenSum s.batchFiles ∧
  (2 ≤ s.batchFiles.length → s.tokenCount ≤ BATCH_MAX_TOKENS) ∧
  ∀ b ∈ s.emitted, b.length ≠ 1 → tokenSum b ≤ BATCH_MAX_TOKENS

/-- Invariant of the output-file trace: one truncation at the head, followed
by exactly the appends of the API calls made so far. -/
def TraceInv (responses : Nat → String) (s : MainState) : Prop :=
  s.trace = FileOp.truncate :: appendOpsUpTo responses s.flushCount

/-! ## Concrete inputs used in evaluations and witnesses -/

/-- A 4000-character file: estimated at 1000 tokens. -/
def fileA : String := String.mk (List.replicate 4000 'a')

/-- An 8000-character file: estimated at 2000 tokens. -/
def fileC : String := String.mk (List.replicate 8000 'b')

/-- A 12004-character file: estimated at 3001 tokens, above the 3000
ceiling on its own. -/
def bigFile : String := String.mk (List.replicate 12004 'a')

/-- A run whose enumeration finds no files while the credential is absent. -/
def envNoFiles : Env :=
  { userPrompt := "x", findResult := Except.ok [], apiKey := none
    responses := fun _ => "", clipboardOk := true }

/-- A run that finds one readable file but has no credential. -/
def envNoKey : Env :=
  { userPrompt := "q", findResult := Except.ok [some "hi"], apiKey := none
    responses := fun _ => "", clipboardOk := true }

/-- A fully configured run over one readable file. -/
def envOk : Env :=
  { userPrompt := "q", findResult := Except.ok [some "hi"], apiKey := some "k"
    responses := fun _ => "", clipboardOk := true }

/-! ## Helper lemmas -/

/-- Closed form used for computation: the estimate is `char_count / 4`. -/
theorem estimate_tokens_eq_div (c : Nat) : estimate_tokens c = c / 4 := by
  unfold estimate_tokens
  rw [show TOKEN_ESTIMATE_PER_CHAR = (1 : ℚ) / 4 by norm_num [TOKEN_ESTIMATE_PER_CHAR],
    mul_one_div]
  exact_mod_cast Nat.floor_div_eq_div (α := ℚ) c 4

/-- A step-closed predicate holds after any fold. -/
theorem foldl_inv {σ α : Type} (P : σ → Prop) (step : σ → α → σ)
    (h : ∀ s a, P s → P (step s a)) :
    ∀ (l : List α) (s : σ), P s → P (l.foldl step s)
  | [], _, hs => hs
  | a :: l, s, hs => foldl_inv P step h l (step s a) (h s a hs)

theorem batchContentOf_append (fs : List String) (c : String) :
    batchContentOf (fs ++ [c]) = batchContentOf fs ++ (c ++ "\n\n") := by
  induction fs with
  | nil => simp [batchContentOf]
  | cons d fs ih => simp [batchContentOf, ih, String.append_assoc]

theorem batchContentOf_ne_empty (c : String) (fs : List String) :
    batchContentOf (c :: fs) ≠ "" := by
  intro h
  have hl := congrArg String.length h
  have h2 : ("\n\n" : String).length = 2 := rfl
  simp [batchContentOf, h2] at hl

theorem tokenSum_append (fs : List String) (c : String) :
    tokenSum (fs ++ [c]) = tokenSum fs + estimate_tokens c.length := by
  simp [tokenSum]

theorem appendOpsUpTo_succ (responses : Nat → String) (n : Nat) :
    appendOpsUpTo responses (n + 1) =
      appendOpsUpTo responses n ++
        (if responses n = "" then [] else [FileOp.append (responses n ++ "\n\n")]) := by
  by_cases h : responses n = "" <;>
    simp [appendOpsUpTo, List.range_succ, h]

/-- No file content is lost by the loop: the flushed batches plus the current
buffer account for exactly the successfully read contents, in order. -/
theorem foldl_stepFile_join (responses : Nat → String) :
    ∀ (files : List (Option String)) (s : MainState),
      (files.foldl (stepFile responses) s).emitted.flatten ++
          (files.foldl (stepFile responses) s).batchFiles =
        s.emitted.flatten ++ s.batchFiles ++ files.filterMap id
  | [], s => by simp
  | none :: files, s => by
    rw [List.foldl_cons, foldl_stepFile_join responses files (stepFile responses s none)]
    simp [stepFile]
  | some c :: files, s => by
    rw [List.foldl_cons, foldl_stepFile_join responses files (stepFile responses s (some c))]
    by_cases h : s.tokenCount + estimate_tokens c.length > BATCH_MAX_TOKENS
    · simp [stepFile, emitBatch, h]
    · simp [stepFile, h]

/-- The loop counts one processed file per successful read and advances the
progress bar once per enumerated file. -/
theorem foldl_stepFile_counts (responses : Nat → String) :
    ∀ (files : List (Option String)) (s : MainState),
      (files.foldl (stepFile responses) s).processedFiles
          = s.processedFiles + (files.filterMap id).length ∧
        (files.foldl (stepFile responses) s).progress = s.progress + files.length
  | [], s => by simp
  | none :: files, s => by
    rw [List.foldl_cons]
    obtain ⟨ih1, ih2⟩ := foldl_stepFile_counts responses files (stepFile responses s none)
    refine ⟨?_, ?_⟩
    · rw [ih1]; simp [stepFile]
    · rw [ih2]; simp [stepFile]; omega
  | some c :: files, s => by
    rw [List.foldl_cons]
    obtain ⟨ih1, ih2⟩ := foldl_stepFile_counts responses files (stepFile responses s (some c))
    by_cases h : s.tokenCount + estimate_tokens c.length > BATCH_MAX_TOKENS
    · refine ⟨?_, ?_⟩
      · rw [ih1]; simp [stepFile, emitBatch, h]; omega
      · rw [ih2]; simp [stepFile, emitBatch, h]; omega
    · refine ⟨?_, ?_⟩
      · rw [ih1]; simp [stepFile, h]; omega
      · rw [ih2]; simp [stepFile, h]; omega

theorem emitBatch_emitted_bound (responses : Nat → String) (s : MainState)
    (h : BatchInv s) :
    ∀ b ∈ (emitBatch responses s).emitted, b.length ≠ 1 → tokenSum b ≤ BATCH_MAX_TOKENS := by
  obtain ⟨-, h2, h3, h4⟩ := h
  intro b hb hlen
  simp only [emitBatch, List.mem_append, List.mem_singleton] at hb
  rcases hb with hb | rfl
  · exact h4 b hb hlen
  · rcases Nat.lt_or_ge s.batchFiles.length 2 with hl | hl
    · have hb0 : s.batchFiles = [] := List.length_eq_zero.mp (by omega)
      simp [hb0, tokenSum]
    · rw [← h2]; exact h3 hl

theorem stepFile_batchInv (responses : Nat → String) (s : MainState)
    (r : Option String) (h : BatchInv s) : BatchInv (stepFile responses s r) := by
  obtain ⟨h1, h2, h3, h4⟩ := h
  cases r with
  | none => exact ⟨h1, h2, h3, h4⟩
  | some c =>
    by_cases hf : s.tokenCount + estimate_tokens c.length > BATCH_MAX_TOKENS
    · have hem := emitBatch_emitted_bound responses s ⟨h1, h2, h3, h4⟩
      refine ⟨?_, ?_, ?_, ?_⟩
      · simp [stepFile, hf, batchContentOf]
      · simp [stepFile, hf, tokenSum]
      · simp [stepFile, hf]
      · intro b hb hlen
        refine hem b ?_ hlen
        simpa [stepFile, hf, emitBatch] using hb
    · refine ⟨?_, ?_, ?_, ?_⟩
      · simp only [stepFile, hf, if_neg, ite_false]
        rw [h1, batchContentOf_append]
      · simp only [stepFile, hf, if_neg, ite_false]
        rw [h2, tokenSum_append]
      · simp [stepFile, hf]
        intro _
        omega
      · simpa [stepFile, hf] using h4

theorem emitBatch_traceInv (responses : Nat → String) (s : MainState)
    (h : TraceInv responses s) : TraceInv responses (emitBatch responses s) := by
  unfold TraceInv at h ⊢
  by_cases hr : responses s.flushCount = "" <;>
    simp [emitBatch, hr, appendOpsUpTo_succ, h]

theorem stepFile_traceInv (responses : Nat → String) (s : MainState)
    (r : Option String) (h : TraceInv responses s) :
    TraceInv responses (stepFile responses s r) := by
  cases r with
  | none => exact h
  | some c =>
    by_cases hf : s.tokenCount + estimate_tokens c.length > BATCH_MAX_TOKENS
    · have := emitBatch_traceInv responses s h
      unfold TraceInv at this ⊢
      simp [stepFile, hf]
      exact this
    · unfold TraceInv at h ⊢
      simp [stepFile, hf]
      exact h

theorem initState_batchInv : BatchInv initState := by
  refine ⟨rfl, rfl, ?_, ?_⟩ <;> simp [initState]

theorem initState_traceInv (responses : Nat → String) : TraceInv responses initState := by
  unfold TraceInv
  simp [initState, appendOpsUpTo]

/-- The clipboard stage only reads the file and prints; every other field is
left alone. -/
theorem clipboardStage_emitted (b : Bool) (s : MainState) :
    (clipboardStage b s).emitted = s.emitted := by cases b <;> rfl

theorem clipboardStage_fileContent (b : Bool) (s : MainState) :
    (clipboardStage b s).fileContent = s.fileContent := by cases b <;> rfl

theorem clipboardStage_processedFiles (b : Bool) (s : MainState) :
    (clipboardStage b s).processedFiles = s.processedFiles := by cases b <;> rfl

theorem clipboardStage_progress (b : Bool) (s : MainState) :
    (clipboardStage b s).progress = s.progress := by cases b <;> rfl

theorem clipboardStage_flushCount (b : Bool) (s : MainState) :
    (clipboardStage b s).flushCount = s.flushCount := by cases b <;> rfl

theorem clipboardStage_trace (b : Bool) (s : MainState) :
    (clipboardStage b s).trace = s.trace ++ [FileOp.readAll] := by cases b <;> rfl

/-- A buffer string that ends in the file separator is never empty — used to
evaluate the final-flush guard `if batch_content:` on concrete runs. -/
theorem append_sep_ne_empty (a c : String) : ¬ a ++ (c ++ "\n\n") = "" := by
  intro h
  have hl := congrArg String.length h
  have h2 : ("\n\n" : String).length = 2 := rfl
  simp [h2] at hl

/-- An empty buffer string means an empty buffer: the loop invariant plus
`batchContentOf_ne_empty`. -/
theorem batchFiles_nil_of_content_empty (s : MainState)
    (h1 : s.batchContent = batchContentOf s.batchFiles)
    (h : s.batchContent = "") : s.batchFiles = [] := by
  cases hf : s.batchFiles with
  | nil => rfl
  | cons c fs =>
    rw [hf] at h1
    exact absurd (h1 ▸ h) (batchContentOf_ne_empty c fs)

/-- Variant of `append_sep_ne_empty` matching a buffer normalised by
`String.empty_append`. -/
theorem append_nn_ne_empty (a : String) : ¬ a ++ "\n\n" = "" := by
  intro h
  have hl := congrArg String.length h
  have h2 : ("\n\n" : String).length = 2 := rfl
  simp [h2] at hl

/-- The loop never prints to the console. -/
theorem stepFile_console (responses : Nat → String) (s : MainState) (r : Option String) :
    (stepFile responses s r).console = s.console := by
  cases r with
  | none => rfl
  | some c =>
    by_cases hf : s.tokenCount + estimate_tokens c.length > BATCH_MAX_TOKENS
    · simp [stepFile, hf, emitBatch]
    · simp [stepFile, hf]

/-- Evaluation of the batcher on three successfully read files of 4000,
4000 and 8000 characters (estimates 1000, 1000, 2000): the third file
triggers a flush of the first two, and the final flush emits it alone. -/
theorem mainRun_threeFiles_emitted (clipboardOk : Bool) :
    (mainRun (fun _ => "") clipboardOk [some fileA, some fileA, some fileC]).emitted
      = [[fileA, fileA], [fileC]] := by
  have hA : estimate_tokens fileA.length = 1000 := by
    rw [fileA, String.length_mk, List.length_replicate, estimate_tokens_eq_div]
  have hC : estimate_tokens fileC.length = 2000 := by
    rw [fileC, String.length_mk, List.length_replicate, estimate_tokens_eq_div]
  rw [show mainRun (fun _ => "") clipboardOk [some fileA, some fileA, some fileC]
      = clipboardStage clipboardOk
          (let s1 := [some fileA, some fileA, some fileC].foldl (stepFile fun _ => "") initState
           if s1.batchContent = "" then s1 else emitBatch (fun _ => "") s1) from rfl,
    clipboardStage_emitted]
  simp [stepFile, emitBatch, initState, hA, hC, BATCH_MAX_TOKENS,
    append_sep_ne_empty, append_nn_ne_empty]

/-! ## Claim theorems -/

/-- C5: the token estimator is a pure function satisfying
`estimate(c) = floor(c * 0.25)` for every character count `c ≥ 0`, and is
therefore monotonic in the character count. -/
theorem C5_estimator_floor_and_monotone :
    (∀ c : Nat, (estimate_tokens c : ℤ) = ⌊(c : ℚ) * (0.25 : ℚ)⌋) ∧
    ∀ c1 c2 : Nat, c1 ≤ c2 → estimate_tokens c1 ≤ estimate_tokens c2 := by
  constructor
  · intro c
    unfold estimate_tokens
    rw [show (0.25 : ℚ) = TOKEN_ESTIMATE_PER_CHAR from by norm_num [TOKEN_ESTIMATE_PER_CHAR]]
    exact Int.natCast_floor_eq_floor
      (mul_nonneg (Nat.cast_nonneg c) (by norm_num [TOKEN_ESTIMATE_PER_CHAR]))
  · intro c1 c2 h
    rw [estimate_tokens_eq_div, estimate_tokens_eq_div]
    exact Nat.div_le_div_right h

/-- Witness for C5 at character counts 3 ≤ 9. -/
theorem C5_estimator_floor_and_monotone_witness :
    3 ≤ 9 ∧ estimate_tokens 3 ≤ estimate_tokens 9 :=
  ⟨by decide, C5_estimator_floor_and_monotone.2 3 9 (by decide)⟩

/-- C3: the retry wrapper with `tries=4, delay=3, backoff=2` returns the
success result when the call fails `K < 4` times then succeeds (making `K+1`
attempts and sleeping the first `K` delays of the schedule), and when the
call fails on every attempt it makes exactly 4 attempts, sleeps 3, 6 and 12
time-units before the retries, and propagates the last attempt's exception
as-is. -/
theorem C3_retry_bridge (ε α : Type) (e : ε) (a : α) (K : Nat) :
    (K < 4 → retry_run 4 3 2 (failsThen K e a)
        = (Except.ok a, K + 1, (List.range K).map fun i => 3 * 2 ^ i)) ∧
    (4 ≤ K → retry_run 4 3 2 (failsThen K e a) = (Except.error e, 4, [3, 6, 12])) := by
  constructor
  · intro hK
    interval_cases K <;>
      simp [retry_run, f_retry_go, failsThen, List.range_succ]
  · intro hK
    have h0 : (0:Nat) < K := by omega
    have h1 : (1:Nat) < K := by omega
    have h2 : (2:Nat) < K := by omega
    have h3 : (3:Nat) < K := by omega
    simp [retry_run, f_retry_go, failsThen, h0, h1, h2, h3]

/-- Witness for C3: two failures then success returns the result after 3
attempts and delays 3, 6; five failures exhausts the 4 tries with delays
3, 6, 12 and surfaces the exception. -/
theorem C3_retry_bridge_witness :
    (2 < 4 ∧ retry_run 4 3 2 (failsThen 2 () (7 : Nat)) = (Except.ok 7, 3, [3, 6])) ∧
    (4 ≤ 5 ∧ retry_run 4 3 2 (failsThen 5 () (7 : Nat)) = (Except.error (), 4, [3, 6, 12])) :=
  ⟨⟨by decide, by
      have h := (C3_retry_bridge Unit Nat () 7 2).1 (by decide)
      simpa [List.range_succ] using h⟩,
   ⟨by decide, (C3_retry_bridge Unit Nat () 7 5).2 (by decide)⟩⟩

/-- C6: the remote analyzer client never raises — a successful call returns
the concatenation of the streamed fragments, any exception yields the empty
string — and a batch whose call yields the empty string contributes nothing
to the output file (no append is performed; the run continues). -/
theorem C6_analyzer_never_raises (ε : Type) (e : ε) (chunks : List String)
    (responses : Nat → String) (s : MainState)
    (hresp : responses s.flushCount = "") :
    process_with_claude (Except.error e : Except ε (List String)) = "" ∧
    process_with_claude (Except.ok chunks : Except ε (List String)) = String.join chunks ∧
    (emitBatch responses s).fileContent = s.fileContent ∧
    (emitBatch responses s).trace = s.trace := by
  refine ⟨rfl, rfl, ?_, ?_⟩ <;> simp [emitBatch, hresp]

/-- Witness for C6: a response oracle that always answers `""` leaves the
output file untouched when the initial batch is flushed. -/
theorem C6_analyzer_never_raises_witness :
    ((fun _ : Nat => "") initState.flushCount = "") ∧
      (emitBatch (fun _ : Nat => "") initState).fileContent = initState.fileContent ∧
      (emitBatch (fun _ : Nat => "") initState).trace = initState.trace :=
  ⟨rfl, (C6_analyzer_never_raises Unit () [] (fun _ => "") initState rfl).2.2⟩

/-- C2: the sum of the estimated token counts of the files placed in an
emitted batch is at most the ceiling `BATCH_MAX_TOKENS`, except possibly
when the batch contains exactly one file. -/
theorem C2_batch_within_ceiling (responses : Nat → String) (clipboardOk : Bool)
    (files : List (Option String)) (b : List String)
    (hb : b ∈ (mainRun responses clipboardOk files).emitted) (hlen : b.length ≠ 1) :
    tokenSum b ≤ BATCH_MAX_TOKENS := by
  have hloop : BatchInv (files.foldl (stepFile responses) initState) :=
    foldl_inv BatchInv (stepFile responses)
      (fun s a h => stepFile_batchInv responses s a h) files initState initState_batchInv
  simp only [mainRun] at hb
  rw [clipboardStage_emitted] at hb
  by_cases hc : (files.foldl (stepFile responses) initState).batchContent = ""
  · rw [if_pos hc] at hb
    exact hloop.2.2.2 b hb hlen
  · rw [if_neg hc] at hb
    exact emitBatch_emitted_bound responses _ hloop b hb hlen

/-- C4: the batcher never drops a file — the concatenation of the emitted
batches is exactly the successfully read file contents, in enumeration
order, the final partial batch included. -/
theorem C4_no_file_dropped (responses : Nat → String) (clipboardOk : Bool)
    (files : List (Option String)) :
    ((mainRun responses clipboardOk files).emitted).flatten = files.filterMap id := by
  have hloop : BatchInv (files.foldl (stepFile responses) initState) :=
    foldl_inv BatchInv (stepFile responses)
      (fun s a h => stepFile_batchInv responses s a h) files initState initState_batchInv
  have hjoin := foldl_stepFile_join responses files initState
  rw [show initState.emitted = [] from rfl, show initState.batchFiles = [] from rfl] at hjoin
  simp only [List.flatten_nil, List.nil_append] at hjoin
  simp only [mainRun]
  rw [clipboardStage_emitted]
  by_cases hc : (files.foldl (stepFile responses) initState).batchContent = ""
  · rw [if_pos hc]
    have hnil : (files.foldl (stepFile responses) initState).batchFiles = [] :=
      batchFiles_nil_of_content_empty _ hloop.1 hc
    rw [hnil, List.append_nil] at hjoin
    exact hjoin
  · rw [if_neg hc]
    show ((files.foldl (stepFile responses) initState).emitted
        ++ [(files.foldl (stepFile responses) initState).batchFiles]).flatten = _
    rw [List.flatten_append]
    simpa using hjoin

/-- Trace of the portion of `main` from the truncation onward: one
truncation at the head, one append per API call whose response is
non-empty, one read-back at the end. -/
theorem mainRun_trace (responses : Nat → String) (clipboardOk : Bool)
    (files : List (Option String)) :
    (mainRun responses clipboardOk files).trace
      = FileOp.truncate ::
          (appendOpsUpTo responses (mainRun responses clipboardOk files).flushCount
            ++ [FileOp.readAll]) := by
  have hloop : TraceInv responses (files.foldl (stepFile responses) initState) :=
    foldl_inv (TraceInv responses) (stepFile responses)
      (fun s a h => stepFile_traceInv responses s a h) files initState
      (initState_traceInv responses)
  have h2 : TraceInv responses
      (if (files.foldl (stepFile responses) initState).batchContent = ""
        then files.foldl (stepFile responses) initState
        else emitBatch responses (files.foldl (stepFile responses) initState)) := by
    by_cases hc : (files.foldl (stepFile responses) initState).batchContent = ""
    · rw [if_pos hc]; exact hloop
    · rw [if_neg hc]; exact emitBatch_traceInv responses _ hloop
  simp only [mainRun]
  rw [clipboardStage_trace, clipboardStage_flushCount, h2]
  simp

/-- C10: a file whose read fails advances the progress indicator but is not
counted as processed: the progress bar advances once per enumerated file,
while the processed-files counter — and the count reported in the final
summary — equals exactly the number of files whose contents were read
successfully. -/
theorem C10_processed_counter (responses : Nat → String) (clipboardOk : Bool)
    (files : List (Option String)) :
    (mainRun responses clipboardOk files).processedFiles = (files.filterMap id).length ∧
    (mainRun responses clipboardOk files).progress = files.length ∧
    (mainRun responses true files).console
      = ["🎉 Successfully processed " ++ toString (files.filterMap id).length ++ " file(s)."
        , "Relevant code snippets have been saved to '" ++ OUTPUT_FILE
            ++ "' and copied to the clipboard!"] := by
  obtain ⟨hc1, hc2⟩ := foldl_stepFile_counts responses files initState
  rw [show initState.processedFiles = 0 from rfl, Nat.zero_add] at hc1
  rw [show initState.progress = 0 from rfl, Nat.zero_add] at hc2
  have hconsole : (files.foldl (stepFile responses) initState).console = [] :=
    foldl_inv (fun s => s.console = []) (stepFile responses)
      (fun s a h => (stepFile_console responses s a).trans h) files initState rfl
  refine ⟨?_, ?_, ?_⟩
  · simp only [mainRun]
    rw [clipboardStage_processedFiles]
    by_cases hc : (files.foldl (stepFile responses) initState).batchContent = ""
    · rw [if_pos hc]
      exact hc1
    · rw [if_neg hc]
      show (files.foldl (stepFile responses) initState).processedFiles = _
      exact hc1
  · simp only [mainRun]
    rw [clipboardStage_progress]
    by_cases hc : (files.foldl (stepFile responses) initState).batchContent = ""
    · rw [if_pos hc]
      exact hc2
    · rw [if_neg hc]
      show (files.foldl (stepFile responses) initState).progress = _
      exact hc2
  · simp only [mainRun]
    by_cases hc : (files.foldl (stepFile responses) initState).batchContent = ""
    · rw [if_pos hc]
      show (files.foldl (stepFile responses) initState).console
          ++ [_, _] = _
      rw [hconsole, hc1]
      simp
    · rw [if_neg hc]
      show (files.foldl (stepFile responses) initState).console
          ++ ["🎉 Successfully processed "
                ++ toString (files.foldl (stepFile responses) initState).processedFiles
                ++ " file(s).", _] = _
      rw [hconsole, hc1]
      simp

/-- C1: evaluation at the failing input.  The in-loop flush condition
(source line 233) tests only `token_count + file_token_count >
BATCH_MAX_TOKENS`, with no non-empty-buffer conjunct, so a first file whose
own estimate exceeds the ceiling (12004 characters, estimate 3001 > 3000)
makes the code emit the EMPTY buffer as a zero-file batch (an API call with
no code snippets) before appending the file; the oversized file itself is
then emitted unsplit as its own batch at the final flush. -/
theorem C1_oversized_first_file_flushes_empty_buffer :
    (mainRun (fun _ => "") true [some bigFile]).emitted = [[], [bigFile]] := by
  have hB : estimate_tokens bigFile.length = 3001 := by
    rw [bigFile, String.length_mk, List.length_replicate, estimate_tokens_eq_div]
  rw [show mainRun (fun _ => "") true [some bigFile]
      = clipboardStage true
          (let s1 := [some bigFile].foldl (stepFile fun _ => "") initState
           if s1.batchContent = "" then s1 else emitBatch (fun _ => "") s1) from rfl,
    clipboardStage_emitted]
  simp [stepFile, emitBatch, initState, hB, BATCH_MAX_TOKENS,
    append_sep_ne_empty, append_nn_ne_empty]

/-- Witness for C2: the two-file batch emitted in the three-file run is
within the ceiling. -/
theorem C2_batch_within_ceiling_witness :
    ([fileA, fileA] ∈ (mainRun (fun _ => "") true
          [some fileA, some fileA, some fileC]).emitted
        ∧ ([fileA, fileA] : List String).length ≠ 1) ∧
      tokenSum [fileA, fileA] ≤ BATCH_MAX_TOKENS :=
  ⟨⟨by rw [mainRun_threeFiles_emitted]; exact List.mem_cons_self _ _, by decide⟩,
   C2_batch_within_ceiling (fun _ => "") true [some fileA, some fileA, some fileC]
     [fileA, fileA]
     (by rw [mainRun_threeFiles_emitted]; exact List.mem_cons_self _ _)
     (by decide)⟩

/-- C8 counterexample: a run over a directory in which no files are found
exits 0 at source line 176, BEFORE the `CLAUDE_API_KEY` check at line 186 —
so a missing credential does not always produce a non-zero exit, contrary to
the claim. -/
theorem C8_missing_credential_can_exit_zero :
    envNoFiles.apiKey = none ∧ envNoFiles.userPrompt ≠ "" ∧
      cli_main_model envNoFiles = 0 :=
  ⟨rfl, by decide, rfl⟩

/-- C8 amended: the process exits 1 on an empty prompt, on enumeration
failure, and on a missing credential when at least one file was found; it
exits 0 on success — including the degenerate zero-files run, which exits 0
before the credential check. -/
theorem C8_exit_codes (env : Env) :
    (env.userPrompt = "" → cli_main_model env = 1) ∧
    (∀ msg, env.userPrompt ≠ "" → env.findResult = Except.error msg →
        cli_main_model env = 1) ∧
    (∀ fs, env.userPrompt ≠ "" → env.findResult = Except.ok fs → fs.length = 0 →
        cli_main_model env = 0) ∧
    (∀ fs, env.userPrompt ≠ "" → env.findResult = Except.ok fs → fs.length ≠ 0 →
        env.apiKey = none → cli_main_model env = 1) ∧
    (∀ fs key, env.userPrompt ≠ "" → env.findResult = Except.ok fs →
        env.apiKey = some key → cli_main_model env = 0) := by
  refine ⟨?_, ?_, ?_, ?_, ?_⟩
  · intro h
    simp [cli_main_model, h]
  · intro msg hp hf
    simp [cli_main_model, main_model, hp, hf]
  · intro fs hp hf h0
    simp [cli_main_model, main_model, hp, hf, h0]
  · intro fs hp hf hne hkey
    simp [cli_main_model, main_model, hp, hf, hne, hkey]
  · intro fs key hp hf hkey
    by_cases h0 : fs.length = 0
    · simp [cli_main_model, main_model, hp, hf, h0]
    · simp [cli_main_model, main_model, hp, hf, h0, hkey]

/-- Witness for C8 (amended): one readable file and no credential exits 1. -/
theorem C8_exit_codes_witness :
    (envNoKey.userPrompt ≠ "" ∧ envNoKey.findResult = Except.ok [some "hi"]
        ∧ ([some "hi"] : List (Option String)).length ≠ 0 ∧ envNoKey.apiKey = none) ∧
      cli_main_model envNoKey = 1 :=
  ⟨⟨by decide, rfl, by decide, rfl⟩,
    (C8_exit_codes envNoKey).2.2.2.1 [some "hi"] (by decide) rfl (by decide) rfl⟩

/-- C9: a clipboard-copy failure at the end of a completed run changes
neither the exit code — still 0 — nor the contents written to the output
file; only the console report differs. -/
theorem C9_clipboard_failure_frame (env : Env) (fs : List (Option String))
    (key : String) (hp : env.userPrompt ≠ "") (hf : env.findResult = Except.ok fs)
    (hk : env.apiKey = some key) :
    cli_main_model { env with clipboardOk := false } = 0 ∧
    cli_main_model { env with clipboardOk := true } = 0 ∧
    (mainRun env.responses false fs).fileContent
      = (mainRun env.responses true fs).fileContent := by
  refine ⟨?_, ?_, ?_⟩
  · by_cases h0 : fs.length = 0
    · simp [cli_main_model, main_model, hp, hf, h0]
    · simp [cli_main_model, main_model, hp, hf, h0, hk]
  · by_cases h0 : fs.length = 0
    · simp [cli_main_model, main_model, hp, hf, h0]
    · simp [cli_main_model, main_model, hp, hf, h0, hk]
  · simp only [mainRun]
    rw [clipboardStage_fileContent, clipboardStage_fileContent]

/-- Witness for C9 on the one-file environment. -/
theorem C9_clipboard_failure_frame_witness :
    (envOk.userPrompt ≠ "" ∧ envOk.findResult = Except.ok [some "hi"]
        ∧ envOk.apiKey = some "k") ∧
      cli_main_model { envOk with clipboardOk := false } = 0 ∧
      cli_main_model { envOk with clipboardOk := true } = 0 ∧
      (mainRun envOk.responses false [some "hi"]).fileContent
        = (mainRun envOk.responses true [some "hi"]).fileContent :=
  ⟨⟨by decide, rfl, rfl⟩,
    C9_clipboard_failure_frame envOk [some "hi"] "k" (by decide) rfl rfl⟩

/-- C7 counterexample: two real runs falsify the claim as stated over every
run.  A run that finds zero files exits 0 at source line 176 BEFORE the
truncation at line 179, so its output file is never truncated at all; a run
with one file but no credential truncates at line 179 and then exits at
line 189, so it performs the truncation but never reads the file back for
the clipboard copy. -/
theorem C7_aborted_runs_break_lifecycle :
    main_model envNoFiles = (none, 0) ∧
    main_model envNoKey = (some initState, 1) ∧
    initState.trace = [FileOp.truncate] ∧
    FileOp.readAll ∉ initState.trace :=
  ⟨rfl, rfl, rfl, by decide⟩

/-- C7 amended: in every run that reaches the processing loop — at least one
file enumerated and the credential present — the output file is truncated
exactly once, at the very start, before any batch is processed; thereafter
it receives one append per successfully processed batch (an API call whose
response is non-empty), and is read back in full at the end for the
clipboard copy.  A zero-files run exits before the truncation, and a
missing-credential run truncates and then exits before any batch or
read-back. -/
theorem C7_output_file_lifecycle_amended (env : Env) (fs : List (Option String))
    (key : String) (hf : env.findResult = Except.ok fs) (hne : fs.length ≠ 0)
    (hk : env.apiKey = some key) :
    (main_model env).1 = some (mainRun env.responses env.clipboardOk fs) ∧
    (mainRun env.responses env.clipboardOk fs).trace
      = FileOp.truncate ::
          (appendOpsUpTo env.responses
              (mainRun env.responses env.clipboardOk fs).flushCount
            ++ [FileOp.readAll]) := by
  refine ⟨?_, mainRun_trace env.responses env.clipboardOk fs⟩
  simp [main_model, hf, hne, hk]

/-- Witness for C7 (amended) on the fully configured one-file run. -/
theorem C7_output_file_lifecycle_amended_witness :
    (envOk.findResult = Except.ok [some "hi"]
        ∧ ([some "hi"] : List (Option String)).length ≠ 0
        ∧ envOk.apiKey = some "k") ∧
      ((main_model envOk).1 = some (mainRun envOk.responses envOk.clipboardOk [some "hi"]) ∧
        (mainRun envOk.responses envOk.clipboardOk [some "hi"]).trace
          = FileOp.truncate ::
              (appendOpsUpTo envOk.responses
                  (mainRun envOk.responses envOk.clipboardOk [some "hi"]).flushCount
                ++ [FileOp.readAll])) :=
  ⟨⟨rfl, by decide, rfl⟩,
    C7_output_file_lifecycle_amended envOk [some "hi"] "k" rfl (by decide) rfl⟩
